import Mathlib

/-!
Verification development for the ride-sharing matching / seat-inventory /
pooling engine in `src/app.py`.

The Python handlers are shallowly embedded as pure Lean functions over an
explicit document model.  Each handler is translated from its source body:
the sequence of guards appears in the source order, every guard failure is a
distinct error constructor mirroring the handler's error response, and the
MongoDB update operators (`$set`, `$inc`, `$push`, `$pull`, positional `$`)
are modelled by the corresponding pure record/list updates.  Fields never
consulted by the embedded logic (timestamps, prices, display strings,
notification documents) are omitted; identities (user ids, ride ids, points)
are represented by `Nat`; seat counters are `Int` (the Python ints are
unbounded and the code can drive them negative).
-/

/-- Ride (Trip) lifecycle status: `'active', 'in_progress', 'completed',
'cancelled'` (app.py line 453). -/
inductive RideStatus
  | active
  | inProgress
  | completed
  | cancelled
deriving DecidableEq, Repr

/-- Per-rider (Assignment) sub-status: `valid_statuses = ['confirmed',
'picked_up', 'dropped_off', 'no_show']` (app.py line 1292). -/
inductive RiderStatus
  | confirmed
  | pickedUp
  | droppedOff
  | noShow
deriving DecidableEq, Repr

/-- Ride-request lifecycle status: `pending, matching, matched, in_progress,
completed, cancelled` (app.py line 761). -/
inductive ReqStatus
  | pending
  | matching
  | matched
  | inProgress
  | completed
  | cancelled
deriving DecidableEq, Repr

/-- Pool-request status: `pending, primary_rider_accepted, accepted,
rejected_by_primary_rider, rejected_by_driver` (app.py lines 2052, 2146,
2170, 2258, 2323). -/
inductive PoolStatus
  | pending
  | primaryRiderAccepted
  | accepted
  | rejectedByPrimaryRider
  | rejectedByDriver
deriving DecidableEq, Repr

/-- One entry of a ride's `riders` array.  The accept-match path pushes
`{'rider_id', 'seats', 'status': 'confirmed', ...}` (app.py lines 891-899);
the driver pool-accept path pushes `{'rider_id', 'seats', 'is_shared': True,
...}` with NO `status` key (lines 2267-2274), hence `status : Option`. -/
structure Rider where
  rider_id : Nat
  seats : Int
  status : Option RiderStatus
  is_shared : Bool
deriving DecidableEq, Repr

/-- A ride document.  `start_location`/`end_location` are abstract point
identifiers fed to an abstract distance function (the source stores GeoJSON
coordinates and uses the haversine `calculate_distance`).  The source has no
separate capacity field: the declared capacity is the `available_seats`
value at creation time, when `riders` is `[]` (app.py lines 451, 459). -/
structure Ride where
  id : Nat
  driver_id : Nat
  start_location : Nat
  end_location : Nat
  available_seats : Int
  status : RideStatus
  shareable : Bool
  riders : List Rider
deriving DecidableEq, Repr

/-- A ride-request document (app.py lines 749-768, fields the engine
consults). -/
structure RideRequest where
  rider_id : Nat
  requested_seats : Int
  status : ReqStatus
  matched_ride_id : Option Nat
deriving DecidableEq, Repr

/-- A pool-request document (app.py lines 2044-2055, fields the engine
consults). -/
structure PoolRequest where
  ride_id : Nat
  requester_id : Nat
  primary_rider_id : Option Nat
  driver_id : Nat
  needed_seats : Int
  status : PoolStatus
deriving DecidableEq, Repr

/-- Action sent to the pool endpoints: `'accept'` or `'reject'`
(app.py lines 2108, 2217). -/
inductive PoolAction
  | accept
  | reject
deriving DecidableEq, Repr

/-- Structured stand-ins for the handlers' error responses (each constructor
corresponds to one 4xx early return in the source; the source returns
message strings). -/
inductive ErrMsg
  | invalidRequestStatus (s : ReqStatus)
  | rideNotActive (s : RideStatus)
  | notEnoughSeats
  | cannotCancelRequest (s : ReqStatus)
  | cannotStart (s : RideStatus)
  | cannotComplete (s : RideStatus)
  | cannotCancelCompleted
  | cannotUpdateRide (s : RideStatus)
  | cannotUpdateRiderStatus (s : RideStatus)
  | riderNotFound
  | notShareable
  | alreadyResolved (s : PoolStatus)
deriving DecidableEq, Repr

/-- Convert an `Except` result to an `Option`, dropping the error. -/
def exceptToOption {α : Type} : Except ErrMsg α → Option α
  | Except.ok a => some a
  | Except.error _ => none

/-! ## Trip Inventory / Request Lifecycle operations (app.py handlers) -/

/-- `accept_ride_match` (app.py lines 809-919), with the authorisation and
not-found guards elided (the embedding is called with the documents the
handler fetched).  Guards in source order: request status must be
`pending`/`matching` (line 836), ride status must be `active` (line 852),
`available_seats >= requested_seats` (line 858); then the request is set to
`matched` with the ride id stored (lines 880-888) and the ride gets
`$inc available_seats: -requested_seats` and `$push riders` of a
`confirmed` rider (lines 891-908). -/
def acceptRideMatch (req : RideRequest) (ride : Ride) :
    Except ErrMsg (RideRequest × Ride) :=
  if req.status ≠ ReqStatus.pending ∧ req.status ≠ ReqStatus.matching then
    Except.error (ErrMsg.invalidRequestStatus req.status)
  else if ride.status ≠ RideStatus.active then
    Except.error (ErrMsg.rideNotActive ride.status)
  else if ride.available_seats < req.requested_seats then
    Except.error ErrMsg.notEnoughSeats
  else
    Except.ok
      ({ req with status := ReqStatus.matched, matched_ride_id := some ride.id },
       { ride with
           available_seats := ride.available_seats - req.requested_seats,
           riders := ride.riders ++
             [{ rider_id := req.rider_id, seats := req.requested_seats,
                status := some RiderStatus.confirmed, is_shared := false }] })

/-- `cancel_ride_request` (app.py lines 930-985).  Guard: request status not
`completed`/`cancelled` (line 950).  If the request is `matched` to this ride
(lines 957-969) the ride gets `$inc available_seats: +requested_seats` and
`$pull riders` of every entry with this `rider_id`; then the request is set
to `cancelled` (lines 972-980). -/
def cancelRideRequest (req : RideRequest) (ride : Ride) :
    Except ErrMsg (RideRequest × Ride) :=
  if req.status = ReqStatus.completed ∨ req.status = ReqStatus.cancelled then
    Except.error (ErrMsg.cannotCancelRequest req.status)
  else
    let ride' :=
      if req.status = ReqStatus.matched ∧ req.matched_ride_id = some ride.id then
        { ride with
            available_seats := ride.available_seats + req.requested_seats,
            riders := ride.riders.filter (fun r => r.rider_id ≠ req.rider_id) }
      else ride
    Except.ok ({ req with status := ReqStatus.cancelled }, ride')

/-- Set the `status` of the first rider entry matching `rid` (MongoDB's
positional `$` operator updates only the first array element matched by the
query, app.py lines 1336-1346). -/
def setFirstRiderStatus (rid : Nat) (st : RiderStatus) :
    List Rider → List Rider
  | [] => []
  | r :: rs =>
    if r.rider_id = rid then { r with status := some st } :: rs
    else r :: setFirstRiderStatus rid st rs

/-- Seat count of the first rider entry matching `rid`, defaulting to `0`
(`rider_seats = 0` before the lookup loop, app.py lines 1351-1355). -/
def firstRiderSeats (rid : Nat) (rs : List Rider) : Int :=
  match rs.find? (fun r => r.rider_id = rid) with
  | some r => r.seats
  | none => 0

/-- `update_rider_status` (app.py lines 1281-1374).  Guards: ride status in
`['active', 'in_progress']` (line 1316); the rider must appear in `riders`
(lines 1323-1333).  Then the first matching rider entry's status is set
(lines 1336-1346), and if the new status is `no_show` the ride uncondition-
ally gets `$inc available_seats: +rider_seats` when `rider_seats > 0`
(lines 1348-1362) — there is no guard against the rider already being
`no_show`. -/
def updateRiderStatus (ride : Ride) (rid : Nat) (st : RiderStatus) :
    Except ErrMsg Ride :=
  if ride.status ≠ RideStatus.active ∧ ride.status ≠ RideStatus.inProgress then
    Except.error (ErrMsg.cannotUpdateRiderStatus ride.status)
  else if ¬ ride.riders.any (fun r => r.rider_id = rid) then
    Except.error ErrMsg.riderNotFound
  else
    let base := { ride with riders := setFirstRiderStatus rid st ride.riders }
    if st = RiderStatus.noShow then
      let seats := firstRiderSeats rid ride.riders
      if seats > 0 then
        Except.ok { base with available_seats := base.available_seats + seats }
      else Except.ok base
    else Except.ok base

/-- `start_ride` (app.py lines 1142-1207): the ride must be `active`
(line 1162), then its status becomes `in_progress` (lines 1169-1176).
The lockstep update of matched requests is not modelled (no claim uses it). -/
def startRide (ride : Ride) : Except ErrMsg Ride :=
  if ride.status ≠ RideStatus.active then
    Except.error (ErrMsg.cannotStart ride.status)
  else Except.ok { ride with status := RideStatus.inProgress }

/-- `complete_ride` (app.py lines 1211-1277): the ride must be `in_progress`
(line 1231), then its status becomes `completed` (lines 1238-1245). -/
def completeRide (ride : Ride) : Except ErrMsg Ride :=
  if ride.status ≠ RideStatus.inProgress then
    Except.error (ErrMsg.cannotComplete ride.status)
  else Except.ok { ride with status := RideStatus.completed }

/-- `cancel_ride` (app.py lines 585-632): the only status guard is
`ride['status'] == 'completed'` (line 605); any other status — including an
already `cancelled` ride — is set to `cancelled` (lines 612-618). -/
def cancelRide (ride : Ride) : Except ErrMsg Ride :=
  if ride.status = RideStatus.completed then
    Except.error ErrMsg.cannotCancelCompleted
  else Except.ok { ride with status := RideStatus.cancelled }

/-- The `status` field path of `update_ride` (app.py lines 510-581):
`status` is one of the `updatable_fields` (lines 538-541) and the only
status guard is that the current status is not `completed`/`cancelled`
(line 531); the new value is written with no edge validation (lines
548-560).  The handler accepts an arbitrary JSON value; the embedding is
called with one of the four canonical statuses. -/
def updateRideStatus (ride : Ride) (st : RideStatus) : Except ErrMsg Ride :=
  if ride.status = RideStatus.completed ∨ ride.status = RideStatus.cancelled then
    Except.error (ErrMsg.cannotUpdateRide ride.status)
  else Except.ok { ride with status := st }

/-- `update_ride_shareability` (app.py lines 2616-2659): after the
found-and-authorised lookup the handler unconditionally `$set`s `shareable`
(lines 2641-2647); there is no check of the ride's status. -/
def updateRideShareability (ride : Ride) (b : Bool) : Ride :=
  { ride with shareable := b }

/-! ## Pooling Negotiator operations -/

/-- `request_ride_pool` (app.py lines 2002-2097).  Guards: the ride must be
`shareable` (line 2028) and `available_seats >= needed_seats` (line 2035).
`primary_rider_id` is the first rider's id if any, else `None` (line 2047);
the new pool request starts `pending` (line 2052). -/
def requestRidePool (ride : Ride) (requester : Nat) (needed : Int) :
    Except ErrMsg PoolRequest :=
  if ¬ ride.shareable then Except.error ErrMsg.notShareable
  else if ride.available_seats < needed then Except.error ErrMsg.notEnoughSeats
  else
    Except.ok
      { ride_id := ride.id, requester_id := requester,
        primary_rider_id := (ride.riders.head?).map (fun r => r.rider_id),
        driver_id := ride.driver_id, needed_seats := needed,
        status := PoolStatus.pending }

/-- `primary_rider_pool_action` (app.py lines 2102-2199), authorisation
elided.  Guard: status must still be `pending` (line 2135), otherwise the
handler fails with "This request has already been {status}".  `accept` sets
`primary_rider_accepted` (lines 2143-2150); `reject` sets
`rejected_by_primary_rider` (lines 2167-2174). -/
def primaryRiderPoolAction (pr : PoolRequest) (action : PoolAction) :
    Except ErrMsg PoolRequest :=
  if pr.status ≠ PoolStatus.pending then
    Except.error (ErrMsg.alreadyResolved pr.status)
  else
    match action with
    | PoolAction.accept =>
      Except.ok { pr with status := PoolStatus.primaryRiderAccepted }
    | PoolAction.reject =>
      Except.ok { pr with status := PoolStatus.rejectedByPrimaryRider }

/-- `driver_pool_action` (app.py lines 2204-2362), authorisation elided.
The only state guard (lines 2245-2250) runs when `primary_rider_id` is
present AND the action is `accept`: the status must be in `['pending',
'primary_rider_accepted']`.  `accept` then sets the pool request to
`accepted` (lines 2255-2262) and pushes an `is_shared` rider with NO seat
check, `$inc available_seats: -needed_seats` (lines 2267-2284).  `reject`
unconditionally sets `rejected_by_driver` (lines 2320-2328). -/
def driverPoolAction (pr : PoolRequest) (ride : Ride) (action : PoolAction) :
    Except ErrMsg (PoolRequest × Ride) :=
  if pr.primary_rider_id.isSome ∧ action = PoolAction.accept ∧
      pr.status ≠ PoolStatus.pending ∧
      pr.status ≠ PoolStatus.primaryRiderAccepted then
    Except.error (ErrMsg.alreadyResolved pr.status)
  else
    match action with
    | PoolAction.accept =>
      Except.ok
        ({ pr with status := PoolStatus.accepted },
         { ride with
             available_seats := ride.available_seats - pr.needed_seats,
             riders := ride.riders ++
               [{ rider_id := pr.requester_id, seats := pr.needed_seats,
                  status := none, is_shared := true }] })
    | PoolAction.reject =>
      Except.ok ({ pr with status := PoolStatus.rejectedByDriver }, ride)

/-! ## The seat-count invariant -/

/-- Sum of the seat counts of the riders whose sub-status is not `no_show`
(the spec's "active assignments"; the source removes cancelled riders from
the array instead of marking them, so `no_show` is the only excluded
sub-status). -/
def activeSeats (ride : Ride) : Int :=
  ((ride.riders.filter (fun r => r.status ≠ some RiderStatus.noShow)).map
    (fun r => r.seats)).sum

/-- The spec's Trip invariant: `available_seats + Σ(active assignment
seats) = declared capacity`, with `available_seats` never negative. -/
def seatInvariant (capacity : Int) (ride : Ride) : Prop :=
  ride.available_seats + activeSeats ride = capacity ∧ 0 ≤ ride.available_seats

instance (capacity : Int) (ride : Ride) : Decidable (seatInvariant capacity ride) := by
  unfold seatInvariant; infer_instance

/-! ## Matcher (`match_rides`, app.py lines 168-211)

The geodesic distance is an abstract parameter `dist` over point identifiers
(the source's `calculate_distance` is a pure haversine over coordinates; only
its values at the query points matter to the matching logic).  A candidate
keeps the fields the matching logic computes from the trip: the ride id and
the score `pickup_distance + dropoff_distance` (line 188; the rounded display
fields, driver info and the price estimate are presentation data not used by
the filter or the sort). -/

structure MatchCandidate (α : Type) where
  ride_id : Nat
  score : α
deriving DecidableEq, Repr

/-- `find_nearby_rides` (app.py lines 151-166): the `$near` query keeps the
`active` rides whose start location is within `radius_km` of the given
location. -/
def findNearbyRides {α : Type} [LinearOrder α] (dist : Nat → Nat → α)
    (location : Nat) (radius : α) (rides : List Ride) : List Ride :=
  rides.filter (fun r =>
    r.status = RideStatus.active ∧ dist location r.start_location ≤ radius)

/-- Stable insertion of a candidate into a score-sorted list: existing
entries with an equal or smaller score stay in front, matching the stability
of Python's `list.sort` (app.py line 210). -/
def insertCand {α : Type} [LinearOrder α] (c : MatchCandidate α) :
    List (MatchCandidate α) → List (MatchCandidate α)
  | [] => [c]
  | x :: xs =>
    if x.score ≤ c.score then x :: insertCand c xs else c :: x :: xs

/-- Stable sort of candidates by ascending score
(`matches.sort(key=lambda x: x['score'])`, app.py line 210). -/
def sortCands {α : Type} [LinearOrder α] :
    List (MatchCandidate α) → List (MatchCandidate α)
  | [] => []
  | x :: xs => insertCand x (sortCands xs)

/-- `match_rides` (app.py lines 168-211): query the nearby active rides,
keep those whose pickup AND dropoff distances are within the radius
(line 186), score each by the distance sum (line 188), and sort ascending by
score (line 210). -/
def matchRides {α : Type} [LinearOrder α] [Add α] (dist : Nat → Nat → α)
    (radius : α) (pickup dropoff : Nat) (rides : List Ride) :
    List (MatchCandidate α) :=
  sortCands
    ((findNearbyRides dist pickup radius rides).filterMap (fun ride =>
      let pd := dist pickup ride.start_location
      let dd := dist dropoff ride.end_location
      if pd ≤ radius ∧ dd ≤ radius then
        some { ride_id := ride.id, score := pd + dd }
      else none))

lemma mem_insertCand {α : Type} [LinearOrder α]
    {a c : MatchCandidate α} {l : List (MatchCandidate α)} :
    a ∈ insertCand c l ↔ a = c ∨ a ∈ l := by
  induction l with
  | nil => simp [insertCand]
  | cons x xs ih =>
    by_cases h : x.score ≤ c.score
    · simp only [insertCand, if_pos h, List.mem_cons, ih]
      tauto
    · simp only [insertCand, if_neg h, List.mem_cons]

lemma mem_sortCands {α : Type} [LinearOrder α]
    {a : MatchCandidate α} {l : List (MatchCandidate α)} :
    a ∈ sortCands l ↔ a ∈ l := by
  induction l with
  | nil => simp [sortCands]
  | cons x xs ih => simp [sortCands, mem_insertCand, ih]

lemma pairwise_insertCand {α : Type} [LinearOrder α]
    {c : MatchCandidate α} {l : List (MatchCandidate α)}
    (h : l.Pairwise (fun a b => a.score ≤ b.score)) :
    (insertCand c l).Pairwise (fun a b => a.score ≤ b.score) := by
  induction l with
  | nil => simp [insertCand]
  | cons x xs ih =>
    rcases List.pairwise_cons.mp h with ⟨hx, hxs⟩
    by_cases hle : x.score ≤ c.score
    · rw [insertCand, if_pos hle]
      refine List.pairwise_cons.mpr ⟨?_, ih hxs⟩
      intro b hb
      rcases mem_insertCand.mp hb with rfl | hbl
      · exact hle
      · exact hx b hbl
    · rw [insertCand, if_neg hle]
      refine List.pairwise_cons.mpr ⟨?_, h⟩
      intro b hb
      rcases List.mem_cons.mp hb with rfl | hbl
      · exact le_of_not_le hle
      · exact le_trans (le_of_not_le hle) (hx b hbl)

lemma pairwise_sortCands {α : Type} [LinearOrder α]
    (l : List (MatchCandidate α)) :
    (sortCands l).Pairwise (fun a b => a.score ≤ b.score) := by
  induction l with
  | nil => simp [sortCands]
  | cons x xs ih => exact pairwise_insertCand ih

/-! ## Concrete fixtures

Concrete documents used to evaluate the handlers (the spec's scenarios and
the failing inputs).  Point identifiers: `0` is the requested pickup, `100`
the requested dropoff; ride `i` starts at point `i` and ends at point
`10 + i`. -/

/-- The spec's matcher scenario distances: three trips at pickup distances
1, 3, 6 km, all dropoff distances 1 km (any other pair is far away). -/
def scenarioDist : Nat → Nat → ℤ
  | 0, 1 => 1
  | 0, 2 => 3
  | 0, 3 => 6
  | 100, 11 => 1
  | 100, 12 => 1
  | 100, 13 => 1
  | _, _ => 1000

/-- Active two-seat ride number `i` of the matcher scenario, starting at
point `i` and ending at point `10 + i`. -/
def scenarioRide (i : Nat) : Ride :=
  { id := i, driver_id := i, start_location := i, end_location := 10 + i,
    available_seats := 2, status := RideStatus.active, shareable := false,
    riders := [] }

/-- The three rides of the spec's matcher scenario. -/
def scenarioRides : List Ride :=
  [scenarioRide 1, scenarioRide 2, scenarioRide 3]

/-- C9: `match_rides` returns exactly the active rides whose pickup and
dropoff distances are both within the radius, sorted ascending by
`score = pickup_distance + dropoff_distance`; and in the spec's scenario
(three trips at pickup distances 1, 3, 6 km, all dropoff distances 1 km,
radius 5 km) only the first two rides are returned, in that order. -/
theorem matchRides_filters_and_sorts :
    (∀ (α : Type) [LinearOrder α] [Add α] (dist : Nat → Nat → α) (radius : α)
        (pickup dropoff : Nat) (rides : List Ride),
      ((matchRides dist radius pickup dropoff rides).Pairwise
        (fun a b => a.score ≤ b.score)) ∧
      (∀ c ∈ matchRides dist radius pickup dropoff rides,
        ∃ r ∈ rides, r.id = c.ride_id ∧ r.status = RideStatus.active ∧
          dist pickup r.start_location ≤ radius ∧
          dist dropoff r.end_location ≤ radius ∧
          c.score = dist pickup r.start_location + dist dropoff r.end_location) ∧
      (∀ r ∈ rides, r.status = RideStatus.active →
        dist pickup r.start_location ≤ radius →
        dist dropoff r.end_location ≤ radius →
        ({ ride_id := r.id,
           score := dist pickup r.start_location + dist dropoff r.end_location } :
          MatchCandidate α) ∈ matchRides dist radius pickup dropoff rides)) ∧
    (matchRides scenarioDist 5 0 100 scenarioRides).map
      (fun c => c.ride_id) = [1, 2] := by
  constructor
  · intro α instLO instAdd dist radius pickup dropoff rides
    refine ⟨pairwise_sortCands _, ?_, ?_⟩
    · intro c hc
      rw [matchRides, mem_sortCands, List.mem_filterMap] at hc
      obtain ⟨r, hr, hf⟩ := hc
      simp only [findNearbyRides, List.mem_filter, decide_eq_true_eq] at hr
      obtain ⟨hrmem, hactive, hpick⟩ := hr
      refine ⟨r, hrmem, ?_⟩
      by_cases hcond : dist pickup r.start_location ≤ radius ∧
          dist dropoff r.end_location ≤ radius
      · rw [if_pos hcond] at hf
        obtain rfl := Option.some_injective _ hf
        exact ⟨rfl, hactive, hcond.1, hcond.2, rfl⟩
      · rw [if_neg hcond] at hf
        exact absurd hf (by simp)
    · intro r hr hactive hpick hdrop
      rw [matchRides, mem_sortCands, List.mem_filterMap]
      refine ⟨r, ?_, ?_⟩
      · simp only [findNearbyRides, List.mem_filter, decide_eq_true_eq]
        exact ⟨hr, hactive, hpick⟩
      · rw [if_pos ⟨hpick, hdrop⟩]
  · decide

/-- Witness for C9: the general theorem applied to the spec's concrete
scenario, whose result is the two in-radius rides in ascending score
order. -/
theorem matchRides_filters_and_sorts_witness :
    ((matchRides scenarioDist 5 0 100 scenarioRides).Pairwise
      (fun a b => a.score ≤ b.score)) ∧
    (matchRides scenarioDist 5 0 100 scenarioRides).map
      (fun c => c.ride_id) = [1, 2] :=
  ⟨(matchRides_filters_and_sorts.1 ℤ scenarioDist 5 0 100 scenarioRides).1,
   matchRides_filters_and_sorts.2⟩

/-! ## Pooling gate ordering (C3) and terminal-state reentry (C4) -/

/-- A pool request with a primary rider that is still `pending` (the primary
rider has not acted yet). -/
def pendingPoolReq : PoolRequest :=
  { ride_id := 1, requester_id := 4, primary_rider_id := some 7,
    driver_id := 2, needed_seats := 1, status := PoolStatus.pending }

/-- The ride the pool requests target: one confirmed primary rider with one
seat, three seats still free. -/
def pooledRide : Ride :=
  { id := 1, driver_id := 2, start_location := 0, end_location := 0,
    available_seats := 3, status := RideStatus.inProgress, shareable := true,
    riders := [{ rider_id := 7, seats := 1,
                 status := some RiderStatus.confirmed, is_shared := false }] }

/-- Counterexample to C3: with the primary rider present and the pool
request still `pending` (so NOT in `primary_rider_accepted`), the driver's
accept succeeds and sets the request to `accepted`, because the handler
admits both `'pending'` and `'primary_rider_accepted'`
(app.py line 2246). -/
theorem driverAccept_from_pending_succeeds :
    pendingPoolReq.primary_rider_id = some 7 ∧
    pendingPoolReq.status = PoolStatus.pending ∧
    (exceptToOption (driverPoolAction pendingPoolReq pooledRide
        PoolAction.accept)).map (fun x => x.1.status) =
      some PoolStatus.accepted := by
  decide

/-- C3 (amended): a driver accept on a pool request with a primary rider
present succeeds — transitioning it to `accepted` — exactly when its status
is `pending` OR `primary_rider_accepted`; from the three resolved states it
fails and the request is not set to `accepted`. -/
theorem driverAccept_primary_gate (pr : PoolRequest) (ride : Ride)
    (h : pr.primary_rider_id.isSome) :
    ((pr.status = PoolStatus.pending ∨
        pr.status = PoolStatus.primaryRiderAccepted) →
      driverPoolAction pr ride PoolAction.accept =
        Except.ok ({ pr with status := PoolStatus.accepted },
          { ride with
              available_seats := ride.available_seats - pr.needed_seats,
              riders := ride.riders ++
                [{ rider_id := pr.requester_id, seats := pr.needed_seats,
                   status := none, is_shared := true }] })) ∧
    ((pr.status ≠ PoolStatus.pending ∧
        pr.status ≠ PoolStatus.primaryRiderAccepted) →
      driverPoolAction pr ride PoolAction.accept =
        Except.error (ErrMsg.alreadyResolved pr.status)) := by
  constructor
  · rintro (hst | hst) <;> simp [driverPoolAction, hst]
  · rintro ⟨h1, h2⟩
    simp [driverPoolAction, h, h1, h2]

/-- Witness for the amended C3: at a concrete `primary_rider_accepted`
request the driver accept succeeds. -/
theorem driverAccept_primary_gate_witness :
    ({ pendingPoolReq with status := PoolStatus.primaryRiderAccepted
        : PoolRequest }).primary_rider_id.isSome = true ∧
    driverPoolAction
        { pendingPoolReq with status := PoolStatus.primaryRiderAccepted }
        pooledRide PoolAction.accept =
      Except.ok
        ({ pendingPoolReq with status := PoolStatus.accepted },
         { pooledRide with
             available_seats := pooledRide.available_seats -
               pendingPoolReq.needed_seats,
             riders := pooledRide.riders ++
               [{ rider_id := pendingPoolReq.requester_id,
                  seats := pendingPoolReq.needed_seats,
                  status := none, is_shared := true }] }) :=
  ⟨by decide,
   (driverAccept_primary_gate
     { pendingPoolReq with status := PoolStatus.primaryRiderAccepted }
     pooledRide (by decide)).1 (Or.inr rfl)⟩

/-- The pool-request statuses the spec calls terminal. -/
def poolTerminal (s : PoolStatus) : Prop :=
  s = PoolStatus.accepted ∨ s = PoolStatus.rejectedByPrimaryRider ∨
    s = PoolStatus.rejectedByDriver

instance (s : PoolStatus) : Decidable (poolTerminal s) := by
  unfold poolTerminal; infer_instance

/-- A pool request already resolved `accepted` (terminal). -/
def acceptedPoolReq : PoolRequest :=
  { pendingPoolReq with status := PoolStatus.accepted }

/-- Counterexample to C4: a driver reject against a pool request already in
the terminal state `accepted` succeeds and rewrites its status to
`rejected_by_driver` — the handler's terminal-state guard (app.py lines
2245-2250) does not run for the `reject` action. -/
theorem driverReject_on_terminal_succeeds :
    poolTerminal acceptedPoolReq.status ∧
    (exceptToOption (driverPoolAction acceptedPoolReq pooledRide
        PoolAction.reject)).map (fun x => x.1.status) =
      some PoolStatus.rejectedByDriver := by
  decide

/-- C4 (amended): against a pool request in a terminal state, primary-rider
actions fail (with the has-already-been-resolved error) and so does a driver
accept when a primary rider is present; but a driver reject, and a driver
accept when no primary rider is set, are unguarded: they succeed and
overwrite the terminal state (re-reserving seats in the accept case). -/
theorem poolTerminal_reentry (pr : PoolRequest) (ride : Ride)
    (ht : poolTerminal pr.status) :
    (∀ a : PoolAction, primaryRiderPoolAction pr a =
      Except.error (ErrMsg.alreadyResolved pr.status)) ∧
    (pr.primary_rider_id.isSome →
      driverPoolAction pr ride PoolAction.accept =
        Except.error (ErrMsg.alreadyResolved pr.status)) ∧
    (driverPoolAction pr ride PoolAction.reject =
      Except.ok ({ pr with status := PoolStatus.rejectedByDriver }, ride)) ∧
    (pr.primary_rider_id = none →
      driverPoolAction pr ride PoolAction.accept =
        Except.ok ({ pr with status := PoolStatus.accepted },
          { ride with
              available_seats := ride.available_seats - pr.needed_seats,
              riders := ride.riders ++
                [{ rider_id := pr.requester_id, seats := pr.needed_seats,
                   status := none, is_shared := true }] })) := by
  have hnp : pr.status ≠ PoolStatus.pending := by
    rcases ht with h | h | h <;> simp [h]
  have hnpa : pr.status ≠ PoolStatus.primaryRiderAccepted := by
    rcases ht with h | h | h <;> simp [h]
  refine ⟨?_, ?_, ?_, ?_⟩
  · intro a
    simp [primaryRiderPoolAction, hnp]
  · intro hps
    simp [driverPoolAction, hps, hnp, hnpa]
  · simp [driverPoolAction, hnp, hnpa]
  · intro hnone
    simp [driverPoolAction, hnone]

/-- Witness for the amended C4: at the concrete `accepted` pool request the
driver reject goes through and overwrites the terminal state. -/
theorem poolTerminal_reentry_witness :
    poolTerminal acceptedPoolReq.status ∧
    driverPoolAction acceptedPoolReq pooledRide PoolAction.reject =
      Except.ok
        ({ acceptedPoolReq with status := PoolStatus.rejectedByDriver },
         pooledRide) :=
  ⟨by decide,
   (poolTerminal_reentry acceptedPoolReq pooledRide (by decide)).2.2.1⟩

/-! ## Missing capacity check on driver pool-accept (C5) -/

/-- A primary-rider-approved pool request asking for two seats. -/
def twoSeatPoolReq : PoolRequest :=
  { ride_id := 1, requester_id := 4, primary_rider_id := some 7,
    driver_id := 2, needed_seats := 2,
    status := PoolStatus.primaryRiderAccepted }

/-- Its target ride: declared capacity 2 (one seat already held by the
primary rider), only 1 seat left. -/
def oneSeatRide : Ride :=
  { id := 1, driver_id := 2, start_location := 0, end_location := 0,
    available_seats := 1, status := RideStatus.inProgress, shareable := true,
    riders := [{ rider_id := 7, seats := 1,
                 status := some RiderStatus.confirmed, is_shared := false }] }

/-- C5 evaluated at the failing input: a driver accept of a pool request
needing 2 seats on a ride with only 1 available does NOT fail with an
insufficient-seats error — `driver_pool_action` never consults
`available_seats` (app.py lines 2252-2284) — the request transitions to
`accepted`, the rider list grows, and `available_seats` is driven to `-1`. -/
theorem driverAccept_overdraws_seats :
    oneSeatRide.available_seats < twoSeatPoolReq.needed_seats ∧
    (exceptToOption (driverPoolAction twoSeatPoolReq oneSeatRide
        PoolAction.accept)).map
      (fun x => (x.1.status, x.2.available_seats, x.2.riders.length)) =
      some (PoolStatus.accepted, -1, 2) := by
  decide

/-! ## No-show release is not guarded against repetition (C7) -/

/-- A ride of declared capacity 2 with one confirmed single-seat rider. -/
def noShowRide : Ride :=
  { id := 1, driver_id := 2, start_location := 0, end_location := 0,
    available_seats := 1, status := RideStatus.inProgress,
    shareable := false,
    riders := [{ rider_id := 5, seats := 1,
                 status := some RiderStatus.confirmed, is_shared := false }] }

/-- The ride after one no-show marking of rider 5. -/
def noShowOnce : Option Ride :=
  exceptToOption (updateRiderStatus noShowRide 5 RiderStatus.noShow)

/-- The ride after marking the same rider no-show a second time. -/
def noShowTwice : Option Ride :=
  noShowOnce.bind (fun r =>
    exceptToOption (updateRiderStatus r 5 RiderStatus.noShow))

/-- C7 evaluated at the failing input: the first no-show marking sets the
rider's sub-status to `no_show` and releases the seat
(`available_seats` 1 → 2, the declared capacity); but invoking the marking
again for the same rider releases the seat a second time
(`available_seats` → 3), because `update_rider_status` increments
unconditionally whenever the requested status is `no_show`
(app.py lines 1348-1362). -/
theorem noShow_releases_seats_twice :
    noShowOnce.map (fun r =>
      (r.available_seats, r.riders.map (fun x => x.status))) =
      some (2, [some RiderStatus.noShow]) ∧
    noShowTwice.map (fun r => r.available_seats) = some 3 ∧
    noShowTwice.map (fun r => decide (seatInvariant 2 r)) = some false := by
  refine ⟨by decide, by decide, by decide⟩

/-! ## The seat invariant is not preserved by the public operations (C1) -/

/-- A fresh shareable one-seat ride (declared capacity 1). -/
def capOneRide : Ride :=
  { id := 1, driver_id := 2, start_location := 0, end_location := 0,
    available_seats := 1, status := RideStatus.active, shareable := true,
    riders := [] }

/-- A pending one-seat ride request by rider 3. -/
def capOneReq : RideRequest :=
  { rider_id := 3, requested_seats := 1, status := ReqStatus.pending,
    matched_ride_id := none }

/-- Run of the C1 failing sequence: user 4 opens a pool request while a seat
is free, rider 3's accept-match then takes the last seat, and the driver's
pool accept still goes through (no seat re-check), leaving the final ride
state. -/
def capOneFinal : Option Ride := do
  let pr ← exceptToOption (requestRidePool capOneRide 4 1)
  let x ← exceptToOption (acceptRideMatch capOneReq capOneRide)
  let y ← exceptToOption (driverPoolAction pr x.2 PoolAction.accept)
  pure y.2

/-- C1 evaluated at the failing input: a sequence of the claim's own
operations (pool-request creation, accept-match reservation, driver
pool-accept reservation) drives `available_seats` of a capacity-1 ride to
`-1`, so the state violates the never-negative half of the seat invariant. -/
theorem seatInvariant_violated_by_operations :
    capOneFinal.map (fun r =>
      (r.available_seats, decide (seatInvariant 1 r))) =
      some (-1, false) := by
  decide

/-! ## Concurrent accept-match races are not serialized (C2)

`accept_ride_match` is a read-then-write pair: it `find_one`s the ride
(app.py line 844), evaluates the seat guard against that snapshot (line
858), and only later issues the unconditional `$inc available_seats`
update (lines 901-908) whose filter names only the ride id.  Each of the
two phases is atomic in MongoDB, but nothing orders the check of one call
before the write of another, so an interleaving of two calls is: both read
the same snapshot, both pass the guard, both apply the decrement.  The two
phases are embedded separately below; `acceptRideMatch_phases` proves they
recompose to the sequential handler. -/

/-- The guard phase of `accept_ride_match` (app.py lines 836-862), evaluated
against a snapshot of the documents. -/
def acceptMatchGuard (req : RideRequest) (ride : Ride) : Prop :=
  (req.status = ReqStatus.pending ∨ req.status = ReqStatus.matching) ∧
  ride.status = RideStatus.active ∧
  req.requested_seats ≤ ride.available_seats

instance (req : RideRequest) (ride : Ride) :
    Decidable (acceptMatchGuard req ride) := by
  unfold acceptMatchGuard; infer_instance

/-- The write phase of `accept_ride_match`: the `$inc`/`$push` update of
app.py lines 901-908, which MongoDB applies to the current document
regardless of how it changed since the snapshot was read. -/
def acceptMatchApply (req : RideRequest) (ride : Ride) : Ride :=
  { ride with
      available_seats := ride.available_seats - req.requested_seats,
      riders := ride.riders ++
        [{ rider_id := req.rider_id, seats := req.requested_seats,
           status := some RiderStatus.confirmed, is_shared := false }] }

/-- The sequential handler is exactly guard-then-apply on one snapshot. -/
lemma acceptRideMatch_phases (req : RideRequest) (ride : Ride) :
    exceptToOption (acceptRideMatch req ride) =
      if acceptMatchGuard req ride then
        some
          ({ req with
              status := ReqStatus.matched, matched_ride_id := some ride.id },
           acceptMatchApply req ride)
      else none := by
  unfold acceptRideMatch acceptMatchGuard acceptMatchApply exceptToOption
  by_cases h1 : req.status = ReqStatus.pending ∨ req.status = ReqStatus.matching
  · by_cases h2 : ride.status = RideStatus.active
    · by_cases h3 : req.requested_seats ≤ ride.available_seats
      · rcases h1 with h1 | h1 <;> simp [h1, h2, not_lt.mpr h3, h3]
      · rcases h1 with h1 | h1 <;> simp [h1, h2, not_le.mp h3, h3]
    · rcases h1 with h1 | h1 <;> simp [h1, h2]
  · push_neg at h1
    simp [h1.1, h1.2]

/-- A fresh one-seat ride raced for by two requests. -/
def racedRide : Ride :=
  { id := 1, driver_id := 2, start_location := 0, end_location := 0,
    available_seats := 1, status := RideStatus.active, shareable := false,
    riders := [] }

/-- Rider 3's pending one-seat request. -/
def raceReqA : RideRequest :=
  { rider_id := 3, requested_seats := 1, status := ReqStatus.pending,
    matched_ride_id := none }

/-- Rider 4's pending one-seat request. -/
def raceReqB : RideRequest :=
  { rider_id := 4, requested_seats := 1, status := ReqStatus.pending,
    matched_ride_id := none }

/-- C2 evaluated at the failing interleaving: both one-seat accept-match
calls read the same capacity-1 snapshot, both guards pass (so both calls
report success), and applying both unconditional updates leaves
`available_seats = -1` with both riders booked — 2 seats handed out on a
capacity-1 ride, violating the seat invariant.  The claim's "never both
succeed" therefore fails on the code. -/
theorem concurrent_accepts_overbook :
    acceptMatchGuard raceReqA racedRide ∧
    acceptMatchGuard raceReqB racedRide ∧
    (acceptMatchApply raceReqB (acceptMatchApply raceReqA racedRide)).available_seats
      = -1 ∧
    activeSeats (acceptMatchApply raceReqB (acceptMatchApply raceReqA racedRide))
      = 2 ∧
    ¬ seatInvariant 1
        (acceptMatchApply raceReqB (acceptMatchApply raceReqA racedRide)) := by
  refine ⟨by decide, by decide, by decide, by decide, by decide⟩

/-! ## Release on cancellation (C6) -/

/-- A capacity-1 ride fully booked by rider 3. -/
def bookedRide : Ride :=
  { id := 1, driver_id := 2, start_location := 0, end_location := 0,
    available_seats := 0, status := RideStatus.active, shareable := false,
    riders := [{ rider_id := 3, seats := 1,
                 status := some RiderStatus.confirmed, is_shared := false }] }

/-- Rider 3's request, matched to that ride. -/
def bookedReq : RideRequest :=
  { rider_id := 3, requested_seats := 1, status := ReqStatus.matched,
    matched_ride_id := some 1 }

/-- The outcome of cancelling the already-cancelled request a second time
(fed the documents produced by the first cancellation). -/
def secondCancelOutcome : Option (Except ErrMsg (RideRequest × Ride)) :=
  (exceptToOption (cancelRideRequest bookedReq bookedRide)).map
    (fun x => cancelRideRequest x.1 x.2)

/-- Counterexample to C6: the second cancellation for the same passenger is
NOT a silent no-op — `cancel_ride_request` rejects it with a
cannot-cancel error because the request is already `cancelled`
(app.py line 950). -/
theorem secondCancel_is_an_error :
    secondCancelOutcome =
      some (Except.error (ErrMsg.cannotCancelRequest ReqStatus.cancelled)) := by
  rfl

/-- C6 (amended): cancelling a matched request releases its seats and
cancels it; a second cancellation is then rejected with an error (rather
than being a silent no-op), and because that second call fails it changes
nothing, so `available_seats` is incremented only once across the two
calls. -/
theorem cancel_releases_exactly_once (req : RideRequest) (ride : Ride)
    (h1 : req.status = ReqStatus.matched)
    (h2 : req.matched_ride_id = some ride.id) :
    ∃ req1 ride1,
      cancelRideRequest req ride = Except.ok (req1, ride1) ∧
      ride1.available_seats = ride.available_seats + req.requested_seats ∧
      req1.status = ReqStatus.cancelled ∧
      cancelRideRequest req1 ride1 =
        Except.error (ErrMsg.cannotCancelRequest ReqStatus.cancelled) := by
  refine ⟨{ req with status := ReqStatus.cancelled },
    { ride with
        available_seats := ride.available_seats + req.requested_seats,
        riders := ride.riders.filter (fun r => r.rider_id ≠ req.rider_id) },
    ?_, rfl, rfl, ?_⟩
  · unfold cancelRideRequest
    simp [h1, h2]
  · unfold cancelRideRequest
    simp

/-- Witness for the amended C6 at the concrete booked ride. -/
theorem cancel_releases_exactly_once_witness :
    bookedReq.status = ReqStatus.matched ∧
    bookedReq.matched_ride_id = some bookedRide.id ∧
    ∃ req1 ride1,
      cancelRideRequest bookedReq bookedRide = Except.ok (req1, ride1) ∧
      ride1.available_seats =
        bookedRide.available_seats + bookedReq.requested_seats ∧
      req1.status = ReqStatus.cancelled ∧
      cancelRideRequest req1 ride1 =
        Except.error (ErrMsg.cannotCancelRequest ReqStatus.cancelled) :=
  ⟨rfl, rfl, cancel_releases_exactly_once bookedReq bookedRide rfl rfl⟩

/-! ## Trip status transitions (C8) -/

/-- A fresh active ride. -/
def activeRide : Ride :=
  { id := 1, driver_id := 2, start_location := 0, end_location := 0,
    available_seats := 2, status := RideStatus.active, shareable := false,
    riders := [] }

/-- Counterexample to C8: setting the status directly through the
ride-update endpoint does not fail — an `active` ride is jumped straight to
`completed` (an edge the claim forbids), because `update_ride` writes the
`status` field with no transition validation (app.py lines 530-560). -/
theorem updateStatus_skips_validation :
    activeRide.status = RideStatus.active ∧
    updateRideStatus activeRide RideStatus.completed =
      Except.ok { activeRide with status := RideStatus.completed } := by
  refine ⟨rfl, rfl⟩

/-- C8 (amended): the dedicated endpoints do enforce `active → in_progress`
(start) and `in_progress → completed` (complete), but cancellation only
excludes `completed` — so cancelling an already-cancelled ride succeeds —
and the ride-update endpoint sets the status to any requested value whenever
the current status is neither `completed` nor `cancelled`. -/
theorem ride_status_transition_behaviour (ride : Ride) (st : RideStatus) :
    (startRide ride =
      if ride.status = RideStatus.active
      then Except.ok { ride with status := RideStatus.inProgress }
      else Except.error (ErrMsg.cannotStart ride.status)) ∧
    (completeRide ride =
      if ride.status = RideStatus.inProgress
      then Except.ok { ride with status := RideStatus.completed }
      else Except.error (ErrMsg.cannotComplete ride.status)) ∧
    (cancelRide ride =
      if ride.status = RideStatus.completed
      then Except.error ErrMsg.cannotCancelCompleted
      else Except.ok { ride with status := RideStatus.cancelled }) ∧
    (updateRideStatus ride st =
      if ride.status = RideStatus.completed ∨ ride.status = RideStatus.cancelled
      then Except.error (ErrMsg.cannotUpdateRide ride.status)
      else Except.ok { ride with status := st }) := by
  refine ⟨?_, ?_, rfl, rfl⟩
  · unfold startRide
    by_cases h : ride.status = RideStatus.active <;> simp [h]
  · unfold completeRide
    by_cases h : ride.status = RideStatus.inProgress <;> simp [h]

/-! ## Shareability can be set in any status (C10) -/

/-- A cancelled, non-shareable ride. -/
def cancelledRide : Ride :=
  { id := 1, driver_id := 2, start_location := 0, end_location := 0,
    available_seats := 2, status := RideStatus.cancelled, shareable := false,
    riders := [] }

/-- Counterexample to C10: on a `cancelled` ride the shareability update
succeeds and flips the flag — `update_ride_shareability` has no status
guard at all (app.py lines 2624-2647). -/
theorem setShareable_on_cancelled_succeeds :
    cancelledRide.status = RideStatus.cancelled ∧
    cancelledRide.shareable = false ∧
    (updateRideShareability cancelledRide true).shareable = true := by
  decide

/-- C10 (amended): the shareability update succeeds for every ride
regardless of its status — in particular for `completed` and `cancelled`
rides — setting the flag to the requested value and leaving the status
unchanged. -/
theorem setShareable_ignores_status (ride : Ride) (b : Bool)
    (_h : ride.status = RideStatus.completed ∨
      ride.status = RideStatus.cancelled) :
    (updateRideShareability ride b).shareable = b ∧
    (updateRideShareability ride b).status = ride.status :=
  ⟨rfl, rfl⟩

/-- Witness for the amended C10 at the concrete cancelled ride. -/
theorem setShareable_ignores_status_witness :
    (cancelledRide.status = RideStatus.completed ∨
      cancelledRide.status = RideStatus.cancelled) ∧
    (updateRideShareability cancelledRide true).shareable = true ∧
    (updateRideShareability cancelledRide true).status = cancelledRide.status :=
  ⟨Or.inr rfl, setShareable_ignores_status cancelledRide true (Or.inr rfl)⟩
